import Mathlib

/-!
Shallow embedding of the dart game controller (class `DartSystem` in
`src/de34/mainのコピー.py`): sensor line decoding, zone resolution, scoring,
session termination and sensor calibration.

Modelling conventions:
* Wall-clock instants are abstract natural numbers; `time.time()` values are
  supplied as explicit `now` parameters.  `HitRecord.timestamp` embeds the
  Python `time.time() - self.game_start_time` (a nonnegative elapsed time).
* Console printing (`print`, `display_score`) changes no observable state of
  the claims and is not modelled; `datetime.now().isoformat()` (the
  `game_date` field) is ambient wall-clock text and is likewise omitted.
* `self.arduino.write(...)` may raise `serial.SerialException`.  Each
  processed event therefore carries a boolean `writeOk` telling whether the
  device write succeeds; a failed write leaves an uncaught `serialError` in
  flight.  Mutations made before the raise persist, as in Python.
* Python `int(...)` over a string is modelled by `pyInt?` (optional sign
  followed by decimal digits; the extra whitespace/underscore tolerance of
  CPython is irrelevant to every input considered here), and
  `str.split(':')` by `splitOnColon`.
* Python float arithmetic in calibration is modelled over `Rat`; at the
  concrete inputs of the claims the IEEE double computation is exact enough
  to agree with the rational one (`200.0 * 0.7` rounds to exactly `140.0`).
-/

/-- Scoring zones of the board: the keys of `self.score_zones` in `__init__`. -/
inductive Zone
  | bull
  | zone3
  | zone2
  | zone1
  deriving DecidableEq

/-- Point value per zone: `self.score_zones` in `__init__`. -/
def score_zones : Zone → Int
  | .bull => 100
  | .zone3 => 50
  | .zone2 => 20
  | .zone1 => 10

/-- Sensor id to zone map: `self.sensor_mapping` in `__init__`; ids 0-11,
every other id is absent from the dict. -/
def sensor_mapping : Int → Option Zone
  | 0 => some .zone1
  | 1 => some .zone1
  | 2 => some .zone1
  | 3 => some .zone2
  | 4 => some .zone2
  | 5 => some .zone2
  | 6 => some .zone3
  | 7 => some .zone3
  | 8 => some .zone3
  | 9 => some .bull
  | 10 => some .bull
  | 11 => some .bull
  | _ => none

/-- Pressure thresholds per zone: `self.pressure_threshold` in `__init__`. -/
def pressure_threshold : Zone → Int
  | .bull => 300
  | .zone3 => 250
  | .zone2 => 200
  | .zone1 => 150

/-- LED feedback tokens: the `feedback_codes` dict in `send_feedback`.  The
dict covers all four zones, so the `if zone in feedback_codes` guard in the
source always passes. -/
def feedback_codes : Zone → String
  | .bull => "LED:BULL"
  | .zone3 => "LED:HIGH"
  | .zone2 => "LED:MID"
  | .zone1 => "LED:LOW"

/-- Python `str.split(':')` on the character list of a line. -/
def splitOnColon : List Char → List (List Char)
  | [] => [[]]
  | c :: cs =>
    if c = ':' then [] :: splitOnColon cs
    else
      match splitOnColon cs with
      | [] => [[c]]
      | f :: rest => (c :: f) :: rest

/-- Accumulating decimal-digit parser; fails on the first non-digit. -/
def digitsToNat? (acc : Nat) : List Char → Option Nat
  | [] => some acc
  | c :: cs => if c.isDigit then digitsToNat? (acc * 10 + (c.toNat - 48)) cs else none

/-- Python `int(s)`: optional sign then a nonempty run of decimal digits;
anything else raises ValueError, modelled as `none`. -/
def pyInt? : List Char → Option Int
  | [] => none
  | '-' :: cs => if cs.isEmpty then none else (digitsToNat? 0 cs).map (fun n => -(n : Int))
  | '+' :: cs => if cs.isEmpty then none else (digitsToNat? 0 cs).map (fun n => (n : Int))
  | cs => (digitsToNat? 0 cs).map (fun n => (n : Int))

/-- Frame decoding: `sensor_id, pressure = map(int, data.split(':'))`.
The unpacking succeeds exactly when the split yields two fields and both
parse as integers; any other shape raises ValueError (`none`). -/
def parseLine (data : String) : Option (Int × Int) :=
  match splitOnColon data.data with
  | [a, b] =>
    match pyInt? a, pyInt? b with
    | some i, some p => some (i, p)
    | _, _ => none
  | _ => none

/-- One confirmed hit, the `hit_info` dict built in `register_hit`. -/
structure HitRecord where
  zone : Zone
  points : Int
  pressure : Int
  timestamp : Nat
  deriving DecidableEq

/-- The mutable session state of a `DartSystem` instance: the fields assigned
in `__init__` / `start_game` and mutated during a game. -/
structure DartState where
  current_score : Int
  game_active : Bool
  hit_history : List HitRecord
  game_start_time : Nat
  game_duration : Nat
  deriving DecidableEq

/-- `start_game`: reset score, activate, clear the log, record the start
instant (`game_duration` comes from `__init__`, default 60). -/
def start_game (now : Nat) (duration : Nat) : DartState :=
  { current_score := 0
    game_active := true
    hit_history := []
    game_start_time := now
    game_duration := duration }

/-- Uncaught Python exceptions that the embedded fragments can leave in
flight (`serial.SerialException` from a feedback write). -/
inductive PyError
  | serialError
  deriving DecidableEq

/-- Outcome of processing one sensor line: the state after all mutations,
the feedback tokens written to the device, and an uncaught exception when
one escapes. -/
structure StepResult where
  state : DartState
  writes : List String
  err : Option PyError
  deriving DecidableEq

/-- `register_hit`: add the zone points to the score, append the hit record
(elapsed time = now - game_start_time), then `send_feedback` writes the LED
token.  A failing write raises after the mutations are already in place. -/
def register_hit (writeOk : Bool) (now : Nat) (s : DartState) (zone : Zone)
    (pressure : Int) : StepResult :=
  let points := score_zones zone
  let s' : DartState :=
    { s with
      current_score := s.current_score + points
      hit_history := s.hit_history ++
        [{ zone := zone, points := points, pressure := pressure,
           timestamp := now - s.game_start_time }] }
  if writeOk then
    { state := s', writes := [feedback_codes zone], err := none }
  else
    { state := s', writes := [], err := some .serialError }

/-- `process_sensor_data`: decode the line (ValueError is caught and the
event dropped), resolve the sensor id (unknown ids are dropped), and
register a hit exactly when `pressure > threshold` (strict). -/
def process_sensor_data (writeOk : Bool) (now : Nat) (s : DartState)
    (data : String) : StepResult :=
  match parseLine data with
  | none => { state := s, writes := [], err := none }
  | some (sensor_id, pressure) =>
    match sensor_mapping sensor_id with
    | none => { state := s, writes := [], err := none }
    | some zone =>
      if pressure > pressure_threshold zone then
        register_hit writeOk now s zone pressure
      else
        { state := s, writes := [], err := none }

/-- The result artifact built in `generate_qr_result` (the `game_result`
dict that is JSON-serialized into the QR payload). -/
structure GameResult where
  final_score : Int
  total_hits : Nat
  hit_details : List HitRecord
  game_duration : Nat
  deriving DecidableEq

/-- `generate_qr_result`: snapshot the session into a `GameResult`. -/
def generate_qr_result (s : DartState) : GameResult :=
  { final_score := s.current_score
    total_hits := s.hit_history.length
    hit_details := s.hit_history
    game_duration := s.game_duration }

/-- `end_game`: clear `game_active`, then emit the result artifact. -/
def end_game (s : DartState) : DartState × GameResult :=
  let s' := { s with game_active := false }
  (s', generate_qr_result s')

/-- `game_timer` at expiry of the sleep: `if self.game_active: self.end_game()`;
the guard makes it a no-op on an inactive session. -/
def game_timer (s : DartState) : DartState × Option GameResult :=
  if s.game_active then
    let p := end_game s
    (p.1, some p.2)
  else (s, none)

/-- The `except KeyboardInterrupt` handler of `game_loop`: it calls
`self.end_game()` unconditionally, with no `game_active` guard. -/
def manual_abort (s : DartState) : DartState × Option GameResult :=
  let p := end_game s
  (p.1, some p.2)

/-- The two termination triggers of the session: timer expiry (from the
timer thread) and a caught KeyboardInterrupt (manual abort). -/
inductive Trigger
  | timerExpiry
  | manualAbort
  deriving DecidableEq

/-- Apply one termination trigger to the session state. -/
def apply_trigger (s : DartState) : Trigger → DartState × Option GameResult
  | .timerExpiry => game_timer s
  | .manualAbort => manual_abort s

/-- Run a sequence of termination triggers (an interleaving of the timer
thread and the interrupt handler), collecting every emitted `GameResult`. -/
def run_triggers (s : DartState) : List Trigger → DartState × List GameResult
  | [] => (s, [])
  | t :: ts =>
    let p := apply_trigger s t
    let q := run_triggers p.1 ts
    (q.1, p.2.toList ++ q.2)

/-- One arrival in the poll loop: the instant it is handled, the raw line,
and whether the feedback write (if a hit is registered) succeeds. -/
structure GameEvent where
  now : Nat
  data : String
  writeOk : Bool
  deriving DecidableEq

/-- The poll loop of `game_loop` over a finite arrival sequence: while
`game_active`, process each line; an uncaught exception (the handler catches
only KeyboardInterrupt, not serial errors) leaves the loop immediately. -/
def game_loop (s : DartState) : List GameEvent → DartState × Option PyError
  | [] => (s, none)
  | e :: es =>
    if s.game_active then
      let r := process_sensor_data e.writeOk e.now s e.data
      match r.err with
      | some err => (r.state, some err)
      | none => game_loop r.state es
    else (s, none)

/-- The per-instance lookup tables set in `__init__` and read (never written)
by calibration. -/
structure SystemMaps where
  sensor_mapping : Int → Option Zone
  pressure_threshold : Zone → Int
  score_zones : Zone → Int

/-- The tables as `__init__` builds them. -/
def init_maps : SystemMaps :=
  { sensor_mapping := sensor_mapping
    pressure_threshold := pressure_threshold
    score_zones := score_zones }

/-- One iteration body of the calibration loop: decode the line (ValueError
continues), bucket the pressure under `self.sensor_mapping.get(sensor_id,
'unknown')`; the `none` key is the `'unknown'` bucket.  The instance tables
and the session state are threaded through untouched, mirroring that the
loop body assigns to neither. -/
def calibration_step (m : SystemMaps) (s : DartState)
    (cal : Option Zone → List Int) (data : String) :
    SystemMaps × DartState × (Option Zone → List Int) :=
  match parseLine data with
  | none => (m, s, cal)
  | some (sensor_id, pressure) =>
    let zone := m.sensor_mapping sensor_id
    (m, s, fun k => if k = zone then cal k ++ [pressure] else cal k)

/-- The 30-iteration collection loop of `calibrate_sensors`, folded over the
lines actually read. -/
def calibrate_collect (m : SystemMaps) (s : DartState)
    (cal : Option Zone → List Int) :
    List String → SystemMaps × DartState × (Option Zone → List Int)
  | [] => (m, s, cal)
  | d :: ds =>
    let p := calibration_step m s cal d
    calibrate_collect p.1 p.2.1 p.2.2 ds

/-- `calibrate_sensors`: collect at most 30 lines into per-zone buckets;
the instance tables and the session state are only read. -/
def calibrate_sensors (m : SystemMaps) (s : DartState) (lines : List String) :
    SystemMaps × DartState × (Option Zone → List Int) :=
  calibrate_collect m s (fun _ => []) (lines.take 30)

/-- Python `int(q)` on a finite float value: truncation toward zero. -/
def pyIntOfRat (q : Rat) : Int := if 0 ≤ q then ⌊q⌋ else ⌈q⌉

/-- The per-zone reporting step of `calibrate_sensors`: for a bucket that is
nonempty (`if pressures:`), the mean pressure and the recommended threshold
`int(avg_pressure * 0.7)`; an empty bucket reports nothing. -/
def calibration_report (pressures : List Int) : Option (Rat × Int) :=
  if pressures.isEmpty then none
  else
    let avg_pressure : Rat := ((pressures.sum : Int) : Rat) / (pressures.length : Rat)
    some (avg_pressure, pyIntOfRat (avg_pressure * (7 / 10)))

/-- Score-sum bookkeeping of one processed line: the hit log is extended by
some batch of records (empty or a singleton) whose points account exactly
for the score change. -/
theorem process_extend (w : Bool) (n : Nat) (s : DartState) (d : String) :
    ∃ δ : List HitRecord,
      (process_sensor_data w n s d).state.hit_history = s.hit_history ++ δ
      ∧ (process_sensor_data w n s d).state.current_score
          = s.current_score + (δ.map HitRecord.points).sum := by
  cases hp : parseLine d with
  | none => exact ⟨[], by simp [process_sensor_data, hp]⟩
  | some v =>
    obtain ⟨sid, p⟩ := v
    cases hm : sensor_mapping sid with
    | none => exact ⟨[], by simp [process_sensor_data, hp, hm]⟩
    | some z =>
      by_cases hthr : p > pressure_threshold z
      · refine ⟨[⟨z, score_zones z, p, n - s.game_start_time⟩], ?_⟩
        simp only [process_sensor_data, hp, hm, if_pos hthr, register_hit]
        cases w <;> simp
      · exact ⟨[], by simp [process_sensor_data, hp, hm, if_neg hthr]⟩

/-- The poll loop only ever appends to the hit log. -/
theorem game_loop_extend (es : List GameEvent) :
    ∀ s : DartState, ∃ t, (game_loop s es).1.hit_history = s.hit_history ++ t := by
  induction es with
  | nil => intro s; exact ⟨[], by simp [game_loop]⟩
  | cons e es ih =>
    intro s
    by_cases ha : s.game_active
    · obtain ⟨δ, hδ, _⟩ := process_extend e.writeOk e.now s e.data
      cases herr : (process_sensor_data e.writeOk e.now s e.data).err with
      | some err => exact ⟨δ, by simp [game_loop, ha, herr, hδ]⟩
      | none =>
        obtain ⟨t, ht⟩ := ih (process_sensor_data e.writeOk e.now s e.data).state
        exact ⟨δ ++ t, by simp [game_loop, ha, herr, ht, hδ]⟩
    · exact ⟨[], by simp [game_loop, ha]⟩

/-- The poll loop preserves the score-equals-sum-of-points invariant. -/
theorem game_loop_inv (es : List GameEvent) :
    ∀ s : DartState,
      s.current_score = (s.hit_history.map HitRecord.points).sum →
      (game_loop s es).1.current_score
        = (((game_loop s es).1.hit_history).map HitRecord.points).sum := by
  induction es with
  | nil => intro s h; simpa [game_loop] using h
  | cons e es ih =>
    intro s h
    by_cases ha : s.game_active
    · obtain ⟨δ, hδ, hsc⟩ := process_extend e.writeOk e.now s e.data
      have hinv : (process_sensor_data e.writeOk e.now s e.data).state.current_score
          = (((process_sensor_data e.writeOk e.now s e.data).state.hit_history).map
              HitRecord.points).sum := by
        rw [hδ, hsc, h]; simp
      cases herr : (process_sensor_data e.writeOk e.now s e.data).err with
      | some err => simpa [game_loop, ha, herr] using hinv
      | none =>
        have := ih _ hinv
        simpa [game_loop, ha, herr] using this
    · simpa [game_loop, ha] using h

/-- Running the loop on an extended arrival sequence only appends to the hit
log produced by the shorter sequence. -/
theorem game_loop_prefix_ext (es1 : List GameEvent) :
    ∀ (es2 : List GameEvent) (s : DartState),
      ∃ t, (game_loop s (es1 ++ es2)).1.hit_history
        = (game_loop s es1).1.hit_history ++ t := by
  induction es1 with
  | nil =>
    intro es2 s
    obtain ⟨t, ht⟩ := game_loop_extend es2 s
    exact ⟨t, by simpa [game_loop] using ht⟩
  | cons e es1 ih =>
    intro es2 s
    by_cases ha : s.game_active
    · cases herr : (process_sensor_data e.writeOk e.now s e.data).err with
      | some err => exact ⟨[], by simp [game_loop, ha, herr]⟩
      | none =>
        obtain ⟨t, ht⟩ := ih es2 (process_sensor_data e.writeOk e.now s e.data).state
        exact ⟨t, by simp [game_loop, ha, herr, ht]⟩
    · exact ⟨[], by simp [game_loop, ha]⟩

/-- Claim C1: for a decoded event whose sensor id is in the sensor map, the
processed state carries exactly one appended `HitRecord` and the score
incremented by the zone points when `pressure > threshold`, and is left
completely unchanged when the pressure is equal to or below the threshold. -/
theorem hit_exactly_when_pressure_exceeds_threshold
    (writeOk : Bool) (now : Nat) (s : DartState) (data : String)
    (sensor_id pressure : Int) (zone : Zone)
    (hparse : parseLine data = some (sensor_id, pressure))
    (hmap : sensor_mapping sensor_id = some zone) :
    (process_sensor_data writeOk now s data).state
      = if pressure > pressure_threshold zone then
          { s with
            current_score := s.current_score + score_zones zone
            hit_history := s.hit_history ++
              [{ zone := zone, points := score_zones zone, pressure := pressure,
                 timestamp := now - s.game_start_time }] }
        else s := by
  by_cases hthr : pressure > pressure_threshold zone
  · simp only [process_sensor_data, hparse, hmap, if_pos hthr, register_hit]
    cases writeOk <;> simp
  · simp [process_sensor_data, hparse, hmap, if_neg hthr]

/-- Witness for claim C1: the line "9:350" (sensor 9, bull, threshold 300)
on a fresh session, with the hypotheses discharged concretely. -/
theorem hit_exactly_when_pressure_exceeds_threshold_witness :
    (process_sensor_data true 5 (start_game 0 60) "9:350").state
      = if (350 : Int) > pressure_threshold .bull then
          { start_game 0 60 with
            current_score := (start_game 0 60).current_score + score_zones .bull
            hit_history := (start_game 0 60).hit_history ++
              [{ zone := .bull, points := score_zones .bull, pressure := 350,
                 timestamp := 5 - (start_game 0 60).game_start_time }] }
        else start_game 0 60 :=
  hit_exactly_when_pressure_exceeds_threshold true 5 (start_game 0 60) "9:350" 9 350 .bull
    (by decide) (by decide)

/-- Claim C2: from a freshly started session, after any arrival sequence the
score equals the sum of the points over the hit log, and the hit log is
append-only in event order (the log of any prefix of the arrivals is a
prefix of the final log). -/
theorem score_matches_hit_log_sum_and_append_only
    (t0 dur : Nat) (events extra : List GameEvent) :
    (game_loop (start_game t0 dur) events).1.current_score
      = (((game_loop (start_game t0 dur) events).1.hit_history).map HitRecord.points).sum
    ∧ ∃ tail, (game_loop (start_game t0 dur) (events ++ extra)).1.hit_history
        = (game_loop (start_game t0 dur) events).1.hit_history ++ tail :=
  ⟨game_loop_inv events (start_game t0 dur) (by simp [start_game]),
   game_loop_prefix_ext events extra (start_game t0 dur)⟩

/-- Counterexample to claim C3: from a freshly started session, a timer
expiry followed immediately by a caught KeyboardInterrupt (manual abort,
raised during the sleep of the same loop iteration) performs the finalize
transition twice and emits two `GameResult` artifacts, not one. -/
theorem double_finalize_on_timer_then_abort :
    (run_triggers (start_game 0 60) [.timerExpiry, .manualAbort]).2.length = 2 := by
  decide

/-- Claim C3 as amended: only the timer-expiry trigger is guarded by
`game_active` and is a no-op on an inactive session, so an abort followed by
timer expiry finalizes exactly once; the manual-abort handler calls
`end_game` unguarded, so timer expiry followed by an abort finalizes twice,
emitting a duplicate `GameResult`. -/
theorem termination_trigger_asymmetry (s : DartState) (h : s.game_active = false) :
    game_timer s = (s, none)
    ∧ (run_triggers (start_game 0 60) [.manualAbort, .timerExpiry]).2.length = 1
    ∧ (run_triggers (start_game 0 60) [.timerExpiry, .manualAbort]).2.length = 2 := by
  refine ⟨by simp [game_timer, h], by decide, by decide⟩

/-- Witness for the amended claim C3: the already-finalized session obtained
by ending a fresh session. -/
theorem termination_trigger_asymmetry_witness :
    game_timer (end_game (start_game 0 60)).1 = ((end_game (start_game 0 60)).1, none)
    ∧ (run_triggers (start_game 0 60) [.manualAbort, .timerExpiry]).2.length = 1
    ∧ (run_triggers (start_game 0 60) [.timerExpiry, .manualAbort]).2.length = 2 :=
  termination_trigger_asymmetry (end_game (start_game 0 60)).1 (by decide)

/-- Claim C4: the lines "9:350", "0:140", "3:250" on a fresh session give
score 120 with exactly the Bull hit (+100) followed by the Zone2 hit (+20);
"0:140" is not a hit because 140 is not strictly above the Zone1 threshold
150; the finalized result reports final_score 120 and total_hits 2. -/
theorem end_to_end_scenario_events :
    (game_loop (start_game 0 60)
        [{ now := 1, data := "9:350", writeOk := true },
         { now := 2, data := "0:140", writeOk := true },
         { now := 3, data := "3:250", writeOk := true }]).1
      = { current_score := 120, game_active := true,
          hit_history :=
            [{ zone := .bull, points := 100, pressure := 350, timestamp := 1 },
             { zone := .zone2, points := 20, pressure := 250, timestamp := 3 }],
          game_start_time := 0, game_duration := 60 }
    ∧ (end_game (game_loop (start_game 0 60)
        [{ now := 1, data := "9:350", writeOk := true },
         { now := 2, data := "0:140", writeOk := true },
         { now := 3, data := "3:250", writeOk := true }]).1).2
      = { final_score := 120, total_hits := 2,
          hit_details :=
            [{ zone := .bull, points := 100, pressure := 350, timestamp := 1 },
             { zone := .zone2, points := 20, pressure := 250, timestamp := 3 }],
          game_duration := 60 } := by
  decide

/-- Claim C5: the malformed line "abc:xyz" and the out-of-range line
"99:500" are both processed to completion with no exception in flight, no
feedback write, and the session state (score and hit log included)
unchanged. -/
theorem malformed_and_unknown_lines_dropped (writeOk : Bool) (now : Nat) (s : DartState) :
    process_sensor_data writeOk now s "abc:xyz" = { state := s, writes := [], err := none }
    ∧ process_sensor_data writeOk now s "99:500" = { state := s, writes := [], err := none } :=
  ⟨rfl, rfl⟩

/-- Claim C6: timer expiry on a freshly started session with no events
deactivates the session and emits a `GameResult` with zero score and zero
hits; a second expiry of the timer guard is a no-op. -/
theorem timer_expiry_without_events (t0 dur : Nat) :
    (game_timer (start_game t0 dur)).1.game_active = false
    ∧ (game_timer (start_game t0 dur)).2
        = some { final_score := 0, total_hits := 0, hit_details := [], game_duration := dur }
    ∧ game_timer (game_timer (start_game t0 dur)).1
        = ((game_timer (start_game t0 dur)).1, none) :=
  ⟨rfl, rfl, rfl⟩

/-- Counterexample to claim C7: on the hit "9:350" with a failing feedback
write, the serial error escapes `process_sensor_data` (which catches only
ValueError) and then escapes the game loop (which catches only
KeyboardInterrupt), leaving the session active and never finalized. -/
theorem feedback_write_failure_escapes :
    (process_sensor_data false 5 (start_game 0 60) "9:350").err = some .serialError
    ∧ (game_loop (start_game 0 60) [{ now := 5, data := "9:350", writeOk := false }]).2
        = some .serialError
    ∧ (game_loop (start_game 0 60) [{ now := 5, data := "9:350", writeOk := false }]).1.game_active
        = true := by
  decide

/-- Claim C7 as amended: a feedback write failure on any confirmed hit is
not caught anywhere: the serial error propagates out of the scoring path
with the hit already recorded (score incremented, record appended), and out
of the poll loop, which therefore stops without finalizing the session. -/
theorem feedback_write_failure_unhandled (now : Nat) (s : DartState) (data : String)
    (sensor_id pressure : Int) (zone : Zone)
    (hparse : parseLine data = some (sensor_id, pressure))
    (hmap : sensor_mapping sensor_id = some zone)
    (hthr : pressure > pressure_threshold zone) :
    (process_sensor_data false now s data).err = some .serialError
    ∧ (process_sensor_data false now s data).state.current_score
        = s.current_score + score_zones zone
    ∧ (process_sensor_data false now s data).state.hit_history
        = s.hit_history ++
          [{ zone := zone, points := score_zones zone, pressure := pressure,
             timestamp := now - s.game_start_time }]
    ∧ (s.game_active = true →
        game_loop s [{ now := now, data := data, writeOk := false }]
          = ((process_sensor_data false now s data).state, some .serialError)) := by
  have hstep : process_sensor_data false now s data
      = register_hit false now s zone pressure := by
    simp [process_sensor_data, hparse, hmap, if_pos hthr]
  refine ⟨by rw [hstep]; rfl, by rw [hstep]; simp [register_hit],
    by rw [hstep]; simp [register_hit], ?_⟩
  intro ha
  simp [game_loop, ha, hstep, register_hit]

/-- Witness for the amended claim C7 at the line "9:350" on a fresh
session. -/
theorem feedback_write_failure_unhandled_witness :
    (process_sensor_data false 5 (start_game 0 60) "9:350").err = some .serialError
    ∧ (process_sensor_data false 5 (start_game 0 60) "9:350").state.current_score
        = (start_game 0 60).current_score + score_zones .bull
    ∧ (process_sensor_data false 5 (start_game 0 60) "9:350").state.hit_history
        = (start_game 0 60).hit_history ++
          [{ zone := .bull, points := score_zones .bull, pressure := 350,
             timestamp := 5 - (start_game 0 60).game_start_time }]
    ∧ ((start_game 0 60).game_active = true →
        game_loop (start_game 0 60) [{ now := 5, data := "9:350", writeOk := false }]
          = ((process_sensor_data false 5 (start_game 0 60) "9:350").state,
             some .serialError)) :=
  feedback_write_failure_unhandled 5 (start_game 0 60) "9:350" 9 350 .bull
    (by decide) (by decide) (by decide)

/-- Claim C8: calibration readings 100, 200, 300 collected for one zone
(here zone1 via sensor 0) give mean 200 and recommended threshold
int(200 * 0.7) = 140. -/
theorem calibration_synthetic_readings :
    (calibrate_sensors init_maps (start_game 0 60)
        ["0:100", "0:200", "0:300"]).2.2 (some .zone1) = [100, 200, 300]
    ∧ calibration_report [100, 200, 300] = some (200, 140) := by
  constructor
  · decide
  · norm_num [calibration_report, pyIntOfRat]

/-- One calibration iteration reads, but never writes, the instance tables
and the session state. -/
theorem calibration_step_frame (m : SystemMaps) (s : DartState)
    (cal : Option Zone → List Int) (d : String) :
    (calibration_step m s cal d).1 = m ∧ (calibration_step m s cal d).2.1 = s := by
  unfold calibration_step
  cases parseLine d with
  | none => exact ⟨rfl, rfl⟩
  | some v => exact ⟨rfl, rfl⟩

/-- The calibration collection loop preserves the instance tables and the
session state through every iteration. -/
theorem calibrate_collect_frame (ds : List String) :
    ∀ (m : SystemMaps) (s : DartState) (cal : Option Zone → List Int),
    (calibrate_collect m s cal ds).1 = m ∧ (calibrate_collect m s cal ds).2.1 = s := by
  induction ds with
  | nil => intro m s cal; exact ⟨rfl, rfl⟩
  | cons d ds ih =>
    intro m s cal
    have hstep := calibration_step_frame m s cal d
    simp only [calibrate_collect]
    rw [hstep.1, hstep.2]
    exact ih m s _

/-- Claim C9: for every input stream, `calibrate_sensors` leaves the sensor
map, the per-zone thresholds (and the zone point table) and the whole
session state — score and hit log included — exactly as they were. -/
theorem calibrate_sensors_frame (m : SystemMaps) (s : DartState) (lines : List String) :
    (calibrate_sensors m s lines).1 = m ∧ (calibrate_sensors m s lines).2.1 = s :=
  calibrate_collect_frame (lines.take 30) m s (fun _ => [])

/-- Claim C10: the reporting step produces a recommendation exactly for a
non-empty bucket, whose length — the divisor of the mean — is then positive;
an empty bucket yields no recommendation. -/
theorem calibration_report_nonempty_guard (pressures : List Int) (h : pressures ≠ []) :
    0 < pressures.length
    ∧ (calibration_report pressures).isSome = true
    ∧ calibration_report [] = none := by
  refine ⟨List.length_pos.mpr h, ?_, rfl⟩
  simp [calibration_report, List.isEmpty_iff, h]

/-- Witness for claim C10 at the bucket [100, 200, 300]. -/
theorem calibration_report_nonempty_guard_witness :
    0 < ([100, 200, 300] : List Int).length
    ∧ (calibration_report [100, 200, 300]).isSome = true
    ∧ calibration_report [] = none :=
  calibration_report_nonempty_guard [100, 200, 300] (by decide)
